import Mathlib

/-!
Shallow embedding of the pei-automotive-backend hazard-detector core
(position enrichment plus the accident, overtaking and highway-entry
detectors), with theorems settling the behavioural claims about it.

Conventions of the embedding:
* Python floats are modelled as exact rationals (`ℚ`);
* the transcendental geometry helpers (`haversine_distance_m`,
  `bearing_deg`, and `math.sin`/`math.cos` of an angle given in degrees)
  are collected in a `Geo` parameter: every detector is translated
  uniformly in that parameter, exactly as the Python code calls them;
* Python `dict`s (insertion ordered) are association lists; `dict` update
  keeps the position of an existing key and appends a fresh key;
* the `time.time()` readings taken while one inbound message is handled
  are modelled as a single instant `now`, threaded explicitly;
* MQTT publications are returned as an explicit list of records
  (topic together with the payload fields built by the code).
-/

/-- Abstract geometry oracle: the float trigonometry the services call.
`sin_deg x` stands for `math.sin(math.radians(x))` and `cos_deg x` for
`math.cos(math.radians(x))`. -/
structure Geo where
  haversine_distance_m : ℚ → ℚ → ℚ → ℚ → ℚ
  bearing_deg : ℚ → ℚ → ℚ → ℚ → ℚ
  sin_deg : ℚ → ℚ
  cos_deg : ℚ → ℚ

/-- common/models.py `CarUpdate`: the unit of data flowing through every
detector. `speed_kmh`/`heading_deg` are optional. -/
structure CarUpdate where
  car_id : String
  latitude : ℚ
  longitude : ℚ
  speed_kmh : Option ℚ
  heading_deg : Option ℚ
  timestamp : ℚ
deriving DecidableEq, Repr

/-- Python-dict lookup on an association list. -/
def dictGet {α β : Type} [BEq α] (l : List (α × β)) (k : α) : Option β :=
  (l.find? (fun p => p.1 == k)).map (·.2)

/-- Python-dict update on an association list: replaces the value of an
existing key in place, appends a fresh key at the end. -/
def dictSet {α β : Type} [BEq α] : List (α × β) → α → β → List (α × β)
  | [], k, v => [(k, v)]
  | (k0, v0) :: rest, k, v =>
      if k0 == k then (k0, v) :: rest else (k0, v0) :: dictSet rest k v

/-- Python-set `add` modelled on an insertion-ordered list. -/
def setAdd (l : List String) (x : String) : List String :=
  if l.contains x then l else l ++ [x]

/-- Python-set `discard` modelled on an insertion-ordered list. -/
def setDiscard (l : List String) (x : String) : List String :=
  l.filter (fun y => !(y == x))

/-! ## AccidentDetector (services/accident_detector/service.py) -/

/-- accident_detector `CarState`: a car's recent state for accident
detection. -/
structure CarState where
  car_id : String
  latitude : ℚ
  longitude : ℚ
  speed_kmh : Option ℚ
  heading_deg : Option ℚ
  timestamp : ℚ
  previous_speed_kmh : Option ℚ
deriving DecidableEq, Repr

/-- accident_detector `Accident`: a detected accident event. -/
structure Accident where
  event_id : String
  latitude : ℚ
  longitude : ℚ
  source_vehicle_id : String
  detected_at : ℚ
  active : Bool
deriving DecidableEq, Repr

/-- One MQTT publication made by the accident detector: topic plus the
fields of the JSON notification it carries. -/
structure AccidentPub where
  topic : String
  target_car_id : String
  event_id : String
  accident : Accident
  distance_m : ℚ
  timestamp : ℚ
deriving DecidableEq, Repr

/-- Mutable state of the `AccidentDetector` instance. -/
structure AccidentDetectorState where
  cars : List (String × CarState)
  active_accidents : List Accident
  event_counter : ℕ
deriving DecidableEq, Repr

namespace AccidentDetector

/-- Constant `SPEED_DROP_PERCENT = 0.70`. -/
def SPEED_DROP_PERCENT : ℚ := 7/10
/-- Constant `MIN_SPEED_BEFORE_STOP = 30` km/h. -/
def MIN_SPEED_BEFORE_STOP : ℚ := 30
/-- Constant `STOPPED_THRESHOLD_KMH = 5`. -/
def STOPPED_THRESHOLD_KMH : ℚ := 5
/-- Constant `NOTIFICATION_RADIUS_M = 500`. -/
def NOTIFICATION_RADIUS_M : ℚ := 500
/-- Constant `PROXIMITY_RADIUS_M = 50`. -/
def PROXIMITY_RADIUS_M : ℚ := 50
/-- Constant `ACCIDENT_COOLDOWN_S = 60`. -/
def ACCIDENT_COOLDOWN_S : ℚ := 60
/-- Constant `ACCIDENT_EXPIRY_S = 300`. -/
def ACCIDENT_EXPIRY_S : ℚ := 300

/-- `_is_accident_ahead`: the accident is ahead when the absolute wrapped
difference between the car's heading and the bearing to the accident is
below 90 degrees; a car without heading is never "ahead". -/
def is_accident_ahead (g : Geo) (car : CarState) (accident : Accident) : Bool :=
  match car.heading_deg with
  | none => false
  | some h =>
      let bearing_to_accident := g.bearing_deg car.latitude car.longitude
        accident.latitude accident.longitude
      let heading_diff := |h - bearing_to_accident|
      let heading_diff := min heading_diff (360 - heading_diff)
      heading_diff < 90

/-- `_should_notify_car`: excludes the source vehicle, stopped cars
(speed below `STOPPED_THRESHOLD_KMH` or undefined), cars beyond
`NOTIFICATION_RADIUS_M`, and cars that already passed the accident. -/
def should_notify_car (g : Geo) (car : CarState) (accident : Accident) : Bool :=
  if car.car_id == accident.source_vehicle_id then false
  else
    match car.speed_kmh with
    | none => false
    | some s =>
        if s < STOPPED_THRESHOLD_KMH then false
        else
          let dist := g.haversine_distance_m car.latitude car.longitude
            accident.latitude accident.longitude
          if dist > NOTIFICATION_RADIUS_M then false
          else is_accident_ahead g car accident

/-- `_check_accident_cooldown`: true when some active accident lies within
`PROXIMITY_RADIUS_M` of the location and was detected less than
`ACCIDENT_COOLDOWN_S` ago. -/
def check_accident_cooldown (g : Geo) (accidents : List Accident)
    (now lat lon : ℚ) : Bool :=
  accidents.any (fun accident =>
    accident.active &&
      (g.haversine_distance_m lat lon accident.latitude accident.longitude
          ≤ PROXIMITY_RADIUS_M
        && now - accident.detected_at < ACCIDENT_COOLDOWN_S))

/-- `_notify_nearby_vehicles`: for each tracked car that qualifies, publish
the notification to `alerts/accident/<car_id>` and to `alerts/accident`. -/
def notify_nearby_vehicles (g : Geo) (cars : List (String × CarState))
    (accident : Accident) (now : ℚ) : List AccidentPub :=
  cars.flatMap (fun p =>
    if should_notify_car g p.2 accident then
      let dist := g.haversine_distance_m p.2.latitude p.2.longitude
        accident.latitude accident.longitude
      [ { topic := "alerts/accident/" ++ p.1
          target_car_id := p.1
          event_id := accident.event_id
          accident := accident
          distance_m := dist
          timestamp := now },
        { topic := "alerts/accident"
          target_car_id := p.1
          event_id := accident.event_id
          accident := accident
          distance_m := dist
          timestamp := now } ]
    else [])

/-- `_cleanup_expired_accidents`: flip every active accident older than
`ACCIDENT_EXPIRY_S` to inactive; nothing is ever removed. -/
def cleanup_expired_accidents (accidents : List Accident) (now : ℚ) :
    List Accident :=
  accidents.map (fun accident =>
    if accident.active && (now - accident.detected_at > ACCIDENT_EXPIRY_S)
    then { accident with active := false } else accident)

/-- `_detect_sudden_stop`: percentage-based speed-drop rule. -/
def detect_sudden_stop (update : CarUpdate) (state : CarState) : Bool :=
  match state.previous_speed_kmh, update.speed_kmh with
  | none, _ => false
  | _, none => false
  | some prev, some s =>
      if prev < MIN_SPEED_BEFORE_STOP then false
      else if s > STOPPED_THRESHOLD_KMH then false
      else (prev - s) / prev ≥ SPEED_DROP_PERCENT

/-- `_generate_event_id` after the counter was already incremented to
`counter`: `ACC-<int(now)>-<counter>`. -/
def generate_event_id (now : ℚ) (counter : ℕ) : String :=
  "ACC-" ++ toString (Rat.floor now) ++ "-" ++ toString counter

/-- `_on_car_update`: the full message handler, returning the new detector
state and the list of MQTT publications it makes.  A first sighting only
records the car and returns; otherwise the handler shifts
`previous_speed_kmh`, possibly creates an accident (guarded by the
sudden-stop rule and the cooldown gate) with its immediate notification
round, writes the update into the car's state, re-evaluates every still
active accident against the updated car (publishing those notifications
only to the per-car topic), and finally runs the expiry sweep. -/
def on_car_update (g : Geo) (st : AccidentDetectorState) (u : CarUpdate)
    (now : ℚ) : AccidentDetectorState × List AccidentPub :=
  match dictGet st.cars u.car_id with
  | none =>
      ({ st with
          cars := dictSet st.cars u.car_id
            { car_id := u.car_id
              latitude := u.latitude
              longitude := u.longitude
              speed_kmh := u.speed_kmh
              heading_deg := u.heading_deg
              timestamp := now
              previous_speed_kmh := none } }, [])
  | some existing =>
      let state1 : CarState := { existing with previous_speed_kmh := existing.speed_kmh }
      let cars1 := dictSet st.cars u.car_id state1
      let create := detect_sudden_stop u state1
        && !(check_accident_cooldown g st.active_accidents now u.latitude u.longitude)
      let counter1 := if create then st.event_counter + 1 else st.event_counter
      let accident : Accident :=
        { event_id := generate_event_id now counter1
          latitude := u.latitude
          longitude := u.longitude
          source_vehicle_id := u.car_id
          detected_at := now
          active := true }
      let accidents1 := if create then st.active_accidents ++ [accident]
        else st.active_accidents
      let pubs1 := if create then notify_nearby_vehicles g cars1 accident now
        else []
      let state2 : CarState :=
        { state1 with
          latitude := u.latitude
          longitude := u.longitude
          speed_kmh := u.speed_kmh
          heading_deg := u.heading_deg
          timestamp := now }
      let cars2 := dictSet cars1 u.car_id state2
      let pubs2 := accidents1.filterMap (fun accident =>
        if accident.active && should_notify_car g state2 accident then
          some { topic := "alerts/accident/" ++ u.car_id
                 target_car_id := u.car_id
                 event_id := accident.event_id
                 accident := accident
                 distance_m := g.haversine_distance_m state2.latitude
                   state2.longitude accident.latitude accident.longitude
                 timestamp := now }
        else none)
      let accidents2 := cleanup_expired_accidents accidents1 now
      ({ cars := cars2
         active_accidents := accidents2
         event_counter := counter1 }, pubs1 ++ pubs2)

end AccidentDetector

/-! ## PositionProcessor (services/position_processor/service.py) -/

/-- Mutable state of the `PositionProcessor`: per car the last stored
`(lat, lon, timestamp)`. -/
structure PositionProcessorState where
  states : List (String × (ℚ × ℚ × ℚ))
deriving DecidableEq, Repr

namespace PositionProcessor

/-- `_handle_raw_gps`: derive speed and heading from the stored previous
position, overwrite the stored position, and build the enriched
`CarUpdate` that is published on the shared updates topic. -/
def handle_raw_gps (g : Geo) (st : PositionProcessorState) (car_id : String)
    (lat lon now : ℚ) : PositionProcessorState × CarUpdate :=
  let last := dictGet st.states car_id
  let sh : Option ℚ × Option ℚ :=
    match last with
    | none => (none, none)
    | some (last_lat, last_lon, last_ts) =>
        let dt := now - last_ts
        if dt > 1/20 then
          let dist_m := g.haversine_distance_m last_lat last_lon lat lon
          let speed_mps := dist_m / dt
          let v := speed_mps * (18/5)
          let speed_kmh : Option ℚ := if v > 600 ∨ v < 0 then none else some v
          let heading : Option ℚ := if dist_m > 1 then
            some (g.bearing_deg last_lat last_lon lat lon) else none
          (speed_kmh, heading)
        else (none, none)
  ({ states := dictSet st.states car_id (lat, lon, now) },
    { car_id := car_id
      latitude := lat
      longitude := lon
      speed_kmh := sh.1
      heading_deg := sh.2
      timestamp := now })

end PositionProcessor

/-! ## OvertakingDetector (services/overtaking_detector/service.py) -/

/-- One `overtaking_event` alert published on `alerts/overtaking`. -/
structure OvertakeAlert where
  overtaking_car_id : String
  overtaken_car_id : String
  speed_kmh : Option ℚ
  timestamp : ℚ
  latitude : ℚ
  longitude : ℚ
deriving DecidableEq, Repr

/-- Mutable state of the `OvertakingDetector`. -/
structure OvertakingDetectorState where
  cars : List (String × CarUpdate)
  relative_positions : List ((String × String) × Int)
deriving DecidableEq, Repr

namespace OvertakingDetector

/-- Constant `PROXIMITY_M = 50`. -/
def PROXIMITY_M : ℚ := 50
/-- Constant `HEADING_TOLERANCE_DEG = 30`. -/
def HEADING_TOLERANCE_DEG : ℚ := 30

/-- `_projection_sign`: `+1` when B is ahead of A (the projection of the
vector from A to B on A's heading unit vector is nonnegative), `-1`
otherwise. -/
def projection_sign (g : Geo) (ax ay bx by_ heading_deg : ℚ) : Int :=
  let hx := g.sin_deg heading_deg
  let hy := g.cos_deg heading_deg
  let vx := bx - ax
  let vy := by_ - ay
  let dot := vx * hx + vy * hy
  if dot ≥ 0 then 1 else -1

/-- Body of the pairwise scan of `_on_car_update`, folding over the saved
cars map (which already holds the inbound update). `uh` is the inbound
update's heading. Carries the pair-sign map and the published alerts. -/
def scan (g : Geo) (cars1 : List (String × CarUpdate)) (u : CarUpdate)
    (uh : ℚ) (rel : List ((String × String) × Int)) (now : ℚ) :
    List ((String × String) × Int) × List OvertakeAlert :=
  cars1.foldl (fun acc p =>
    let (other_id, other) := p
    if other_id == u.car_id then acc
    else
      match other.heading_deg, other.speed_kmh with
      | some oh, some _ =>
          let heading_diff := |uh - oh|
          let heading_diff := min heading_diff (360 - heading_diff)
          if heading_diff > HEADING_TOLERANCE_DEG then acc
          else
            let dist := g.haversine_distance_m u.latitude u.longitude
              other.latitude other.longitude
            if dist > PROXIMITY_M then acc
            else
              let sign := projection_sign g u.longitude u.latitude
                other.longitude other.latitude uh
              let key := (u.car_id, other_id)
              let previous_sign := dictGet acc.1 key
              let alerts1 := if previous_sign == some 1 && sign == -1 then
                acc.2 ++ [{ overtaking_car_id := u.car_id
                            overtaken_car_id := other_id
                            speed_kmh := u.speed_kmh
                            timestamp := now
                            latitude := u.latitude
                            longitude := u.longitude }]
                else acc.2
              (dictSet acc.1 key sign, alerts1)
      | _, _ => acc) (rel, [])

/-- `_on_car_update`: drop updates without speed or heading; otherwise
store the update in the cars map and run the pairwise scan over it. -/
def on_car_update (g : Geo) (st : OvertakingDetectorState) (u : CarUpdate)
    (now : ℚ) : OvertakingDetectorState × List OvertakeAlert :=
  match u.speed_kmh, u.heading_deg with
  | some _, some uh =>
      let cars1 := dictSet st.cars u.car_id u
      let r := scan g cars1 u uh st.relative_positions now
      ({ cars := cars1, relative_positions := r.1 }, r.2)
  | _, _ => (st, [])

end OvertakingDetector

/-! ## HighwayEntryDetector (services/highway_entry_detector/service.py)

The two route corridors are loaded from JSON files at startup; they enter
the embedding as explicit waypoint-list parameters.  Python's
`float('inf')` (distance to a missing merge point) is modelled by
`Option ℚ` with `none` standing for infinity.  The `round(x, 2)` applied
to the float alert fields for display is left out (values are exact
rationals here). -/

/-- One alert published on `alerts/highway_entry`; the safe variant has no
`time_to_closest_approach_s` field (`none`). -/
structure HighwayAlert where
  alert_type : String
  entering_car_id : String
  highway_car_id : String
  entering_speed_kmh : Option ℚ
  highway_speed_kmh : Option ℚ
  predicted_min_distance_m : ℚ
  time_to_closest_approach_s : Option ℚ
  status : String
  timestamp : ℚ
  latitude : ℚ
  longitude : ℚ
deriving DecidableEq, Repr

/-- Mutable state of the `HighwayEntryDetector` instance. -/
structure HighwayEntryState where
  cars : List (String × CarUpdate)
  highway_cars : List String
  entering_cars : List String
  alerted_pairs : List (String × String)
deriving DecidableEq, Repr

namespace HighwayEntryDetector

/-- Constant `ENTRY_ZONE_M = 100`. -/
def ENTRY_ZONE_M : ℚ := 100
/-- Constant `MERGE_POINT_DETECTION_M = 20`. -/
def MERGE_POINT_DETECTION_M : ℚ := 20
/-- Constant `COLLISION_THRESHOLD_M = 10`. -/
def COLLISION_THRESHOLD_M : ℚ := 10
/-- Constant `PREDICTION_TIME_S = 5`. -/
def PREDICTION_TIME_S : ℚ := 5

/-- `_is_near_route`: the position is within `threshold_m` of some
waypoint of the route. -/
def is_near_route (g : Geo) (lat lon : ℚ) (route : List (ℚ × ℚ))
    (threshold_m : ℚ) : Bool :=
  route.any (fun p => g.haversine_distance_m lat lon p.1 p.2 < threshold_m)

/-- `_classify_car`: "entering" if within 15 m of the entering road
(checked first), else "highway" if within 25 m of the highway, else
unclassified. -/
def classify_car (g : Geo) (highway_coords entering_coords : List (ℚ × ℚ))
    (u : CarUpdate) : Option String :=
  if is_near_route g u.latitude u.longitude entering_coords 15 then
    some "entering"
  else if is_near_route g u.latitude u.longitude highway_coords 25 then
    some "highway"
  else none

/-- `_find_merge_point`: the last waypoint of the entering road, if any. -/
def find_merge_point (entering_coords : List (ℚ × ℚ)) : Option (ℚ × ℚ) :=
  entering_coords.getLast?

/-- `_distance_to_merge_point`; `none` models `float('inf')` (no merge
point). -/
def distance_to_merge_point (g : Geo) (entering_coords : List (ℚ × ℚ))
    (lat lon : ℚ) : Option ℚ :=
  match find_merge_point entering_coords with
  | none => none
  | some mp => some (g.haversine_distance_m lat lon mp.1 mp.2)

/-- Position of a car extrapolated `t_sec` ahead at constant speed along
its heading with the planar approximation (1 degree latitude = 111000 m,
1 degree longitude = 111000 m times the cosine of the car's current
latitude); a car without heading stays in place. -/
def predicted_pos (g : Geo) (car : CarUpdate) (speed_ms t_sec : ℚ) : ℚ × ℚ :=
  match car.heading_deg with
  | none => (car.latitude, car.longitude)
  | some heading =>
      let d := speed_ms * t_sec
      let lat_offset := d * g.cos_deg heading / 111000
      let lon_offset := d * g.sin_deg heading / (111000 * g.cos_deg car.latitude)
      (car.latitude + lat_offset, car.longitude + lon_offset)

/-- Separation of the two extrapolated positions at `t_sec` (speeds from
`speed_kmh or 0`, converted to m/s). -/
def pred_distance (g : Geo) (entering_car highway_car : CarUpdate)
    (t_sec : ℚ) : ℚ :=
  let ep := predicted_pos g entering_car
    ((entering_car.speed_kmh.getD 0) / (18/5)) t_sec
  let hp := predicted_pos g highway_car
    ((highway_car.speed_kmh.getD 0) / (18/5)) t_sec
  g.haversine_distance_m ep.1 ep.2 hp.1 hp.2

/-- `_predict_collision`: below-threshold current separation short-circuits
to an immediate collision; otherwise the minimum separation and its time
are tracked over the samples `t_sec = 0.1, 0.2, ..., 4.9`.  Returns
`(collision, time_to_min_distance, min_distance)`. -/
def predict_collision (g : Geo) (entering_car highway_car : CarUpdate) :
    Bool × ℚ × ℚ :=
  let current_distance := g.haversine_distance_m
    entering_car.latitude entering_car.longitude
    highway_car.latitude highway_car.longitude
  if current_distance < COLLISION_THRESHOLD_M then
    (true, 0, current_distance)
  else
    let r := (List.range' 1 49).foldl (fun acc (t : ℕ) =>
      let t_sec : ℚ := (t : ℚ) / 10
      let pd := pred_distance g entering_car highway_car t_sec
      if pd < acc.1 then (pd, t_sec) else acc) (current_distance, (0 : ℚ))
    (decide (r.1 < COLLISION_THRESHOLD_M), r.2, r.1)

/-- One iteration of the `_on_car_update` scan over the known highway
cars: checks the highway car's gates, runs the collision prediction, and
emits (and registers) an alert when the pair was not alerted yet. -/
def scan_highway_step (g : Geo) (entering_coords : List (ℚ × ℚ))
    (cars1 : List (String × CarUpdate)) (u : CarUpdate) (now : ℚ)
    (acc : List (String × String) × List HighwayAlert) (hid : String) :
    List (String × String) × List HighwayAlert :=
  match dictGet cars1 hid with
    | none => acc
    | some highway_car =>
        match highway_car.speed_kmh, highway_car.heading_deg with
        | some hs, some _ =>
            if hs == 0 then acc
            else
              match distance_to_merge_point g entering_coords
                highway_car.latitude highway_car.longitude with
              | none => acc
              | some dist_highway_to_merge =>
                  if dist_highway_to_merge < ENTRY_ZONE_M then
                    let r := predict_collision g u highway_car
                    let pair_key := (u.car_id, hid)
                    if acc.1.contains pair_key then acc
                    else
                      let alert : HighwayAlert :=
                        if r.1 then
                          { alert_type := "highway_entry_unsafe"
                            entering_car_id := u.car_id
                            highway_car_id := hid
                            entering_speed_kmh := u.speed_kmh
                            highway_speed_kmh := highway_car.speed_kmh
                            predicted_min_distance_m := r.2.2
                            time_to_closest_approach_s := some r.2.1
                            status := "unsafe"
                            timestamp := now
                            latitude := u.latitude
                            longitude := u.longitude }
                        else
                          { alert_type := "highway_entry_safe"
                            entering_car_id := u.car_id
                            highway_car_id := hid
                            entering_speed_kmh := u.speed_kmh
                            highway_speed_kmh := highway_car.speed_kmh
                            predicted_min_distance_m := r.2.2
                            time_to_closest_approach_s := none
                            status := "safe"
                            timestamp := now
                            latitude := u.latitude
                            longitude := u.longitude }
                      (acc.1 ++ [pair_key], acc.2 ++ [alert])
                  else acc
        | _, _ => acc

/-- The inner scan of `_on_car_update` over the known highway cars, run
when an entering car is close to the merge point.  Folds the alerted-pair
registry and the emitted alerts. -/
def scan_highway_cars (g : Geo) (entering_coords : List (ℚ × ℚ))
    (cars1 : List (String × CarUpdate)) (u : CarUpdate) (now : ℚ)
    (hws : List String) (alerted0 : List (String × String)) :
    List (String × String) × List HighwayAlert :=
  hws.foldl (scan_highway_step g entering_coords cars1 u now) (alerted0, [])

/-- `_on_car_update`: store the update (even without speed/heading), gate
on defined nonzero speed and defined heading, classify the car, and run
the entering-branch collision scan or the highway-branch registry
cleanup. -/
def on_car_update (g : Geo) (highway_coords entering_coords : List (ℚ × ℚ))
    (st : HighwayEntryState) (u : CarUpdate) (now : ℚ) :
    HighwayEntryState × List HighwayAlert :=
  let cars1 := dictSet st.cars u.car_id u
  match u.speed_kmh, u.heading_deg with
  | some s, some _ =>
      if s == 0 then ({ st with cars := cars1 }, [])
      else
        let car_type := classify_car g highway_coords entering_coords u
        if car_type == some "entering" then
          let entering1 := setAdd st.entering_cars u.car_id
          let highway1 := setDiscard st.highway_cars u.car_id
          let base : HighwayEntryState :=
            { st with cars := cars1, entering_cars := entering1,
                      highway_cars := highway1 }
          match distance_to_merge_point g entering_coords u.latitude
            u.longitude with
          | none => (base, [])
          | some dist_to_merge =>
              if dist_to_merge < MERGE_POINT_DETECTION_M then
                let r := scan_highway_cars g entering_coords cars1 u now
                  highway1 st.alerted_pairs
                ({ base with alerted_pairs := r.1 }, r.2)
              else (base, [])
        else if car_type == some "highway" then
          let highway1 := setAdd st.highway_cars u.car_id
          let entering1 := setDiscard st.entering_cars u.car_id
          let far : Bool :=
            match distance_to_merge_point g entering_coords u.latitude
              u.longitude with
            | none => true
            | some dist_to_merge => dist_to_merge > ENTRY_ZONE_M * 2
          let alerted1 := if far then
            st.alerted_pairs.filter (fun pr =>
              !(pr.1 == u.car_id || pr.2 == u.car_id))
            else st.alerted_pairs
          ({ cars := cars1
             highway_cars := highway1
             entering_cars := entering1
             alerted_pairs := alerted1 }, [])
        else ({ st with cars := cars1 }, [])
  | _, _ => ({ st with cars := cars1 }, [])

end HighwayEntryDetector

/-! ## Concrete fixtures used by witnesses and counterexamples -/

/-- Degenerate geometry oracle: all distances and bearings zero, heading
unit vector pointing north. -/
def gZero : Geo :=
  { haversine_distance_m := fun _ _ _ _ => 0
    bearing_deg := fun _ _ _ _ => 0
    sin_deg := fun _ => 0
    cos_deg := fun _ => 1 }

/-- Geometry oracle with constant distance 10 m. -/
def gTen : Geo :=
  { haversine_distance_m := fun _ _ _ _ => 10
    bearing_deg := fun _ _ _ _ => 0
    sin_deg := fun _ => 0
    cos_deg := fun _ => 1 }

/-- Geometry oracle with constant distance 5 m. -/
def gFive : Geo :=
  { haversine_distance_m := fun _ _ _ _ => 5
    bearing_deg := fun _ _ _ _ => 0
    sin_deg := fun _ => 0
    cos_deg := fun _ => 1 }

/-- Geometry oracle with constant distance 11 m. -/
def gEleven : Geo :=
  { haversine_distance_m := fun _ _ _ _ => 11
    bearing_deg := fun _ _ _ _ => 0
    sin_deg := fun _ => 0
    cos_deg := fun _ => 1 }

/-- Geometry oracle with taxicab distance on coordinate degrees (used to
build concrete highway-entry scenarios). -/
def gTaxi : Geo :=
  { haversine_distance_m := fun la1 lo1 la2 lo2 => |la1 - la2| + |lo1 - lo2|
    bearing_deg := fun _ _ _ _ => 0
    sin_deg := fun _ => 0
    cos_deg := fun _ => 1 }

/-- An accident created by car1 at the origin at time 0. -/
def accFix : Accident :=
  { event_id := "ACC-0-1"
    latitude := 0
    longitude := 0
    source_vehicle_id := "car1"
    detected_at := 0
    active := true }

/-- Tracked state of car2: moving at 10 km/h heading north at the origin. -/
def car2Fix : CarState :=
  { car_id := "car2"
    latitude := 0
    longitude := 0
    speed_kmh := some 10
    heading_deg := some 0
    timestamp := 0
    previous_speed_kmh := none }

/-- Tracked state of car1: moving at 40 km/h heading north at the origin. -/
def car1Fix : CarState :=
  { car_id := "car1"
    latitude := 0
    longitude := 0
    speed_kmh := some 40
    heading_deg := some 0
    timestamp := 0
    previous_speed_kmh := none }

/-- Accident-detector state tracking car2 with the stored accident. -/
def stC3 : AccidentDetectorState :=
  { cars := [("car2", car2Fix)]
    active_accidents := [accFix]
    event_counter := 1 }

/-- Update from car2 shortly after the accident. -/
def uC3 : CarUpdate :=
  { car_id := "car2"
    latitude := 0
    longitude := 0
    speed_kmh := some 10
    heading_deg := some 0
    timestamp := 1 }

/-- Accident-detector state with no tracked car and one stale accident. -/
def stC4 : AccidentDetectorState :=
  { cars := []
    active_accidents := [accFix]
    event_counter := 1 }

/-- First-ever update from a previously unseen car, 1000 s after the
stored accident was detected. -/
def uC4 : CarUpdate :=
  { car_id := "car9"
    latitude := 0
    longitude := 0
    speed_kmh := some 10
    heading_deg := some 0
    timestamp := 1000 }

/-- Accident-detector state tracking car1 (fast) with the stored accident. -/
def stC2 : AccidentDetectorState :=
  { cars := [("car1", car1Fix)]
    active_accidents := [accFix]
    event_counter := 1 }

/-- Update from car1 dropping to 3 km/h: a second sudden stop at the
accident location 10 s after the first. -/
def uC2 : CarUpdate :=
  { car_id := "car1"
    latitude := 0
    longitude := 0
    speed_kmh := some 3
    heading_deg := some 0
    timestamp := 10 }

/-- Tracked state whose previous speed sits exactly on the 30 km/h
boundary. -/
def carBoundary : CarState :=
  { car_id := "carB"
    latitude := 0
    longitude := 0
    speed_kmh := some 5
    heading_deg := none
    timestamp := 0
    previous_speed_kmh := some 30 }

/-- Update whose speed sits exactly on the 5 km/h boundary. -/
def uBoundary : CarUpdate :=
  { car_id := "carB"
    latitude := 0
    longitude := 0
    speed_kmh := some 5
    heading_deg := none
    timestamp := 1 }

/-- Position-processor state with one stored position for carA at the
origin at time 0. -/
def stPos : PositionProcessorState := { states := [("carA", (0, 0, 0))] }

/-- Empty position-processor state. -/
def stPosEmpty : PositionProcessorState := { states := [] }

/-- Known car B of the overtaking scenario: at latitude 5, heading north. -/
def carB : CarUpdate :=
  { car_id := "B"
    latitude := 5
    longitude := 0
    speed_kmh := some 10
    heading_deg := some 0
    timestamp := 0 }

/-- First update of car A: behind B (latitude 0). -/
def uA1 : CarUpdate :=
  { car_id := "A"
    latitude := 0
    longitude := 0
    speed_kmh := some 10
    heading_deg := some 0
    timestamp := 1 }

/-- Second update of car A: still behind B (latitude 3). -/
def uA2 : CarUpdate :=
  { car_id := "A"
    latitude := 3
    longitude := 0
    speed_kmh := some 10
    heading_deg := some 0
    timestamp := 2 }

/-- Third update of car A: now ahead of B (latitude 7). -/
def uA3 : CarUpdate :=
  { car_id := "A"
    latitude := 7
    longitude := 0
    speed_kmh := some 10
    heading_deg := some 0
    timestamp := 3 }

/-- Overtaking-detector state knowing only car B, with no stored pair
sign. -/
def stOt : OvertakingDetectorState :=
  { cars := [("B", carB)], relative_positions := [] }

/-- Update without a speed value (its heading is defined). -/
def uNoSpeed : CarUpdate :=
  { car_id := "A"
    latitude := 0
    longitude := 0
    speed_kmh := none
    heading_deg := some 0
    timestamp := 0 }

/-- Entering corridor of the highway-entry scenarios: from the origin to
the merge point at coordinate (300, 0) (taxicab geometry, so 300 m from
the start). -/
def entFix : List (ℚ × ℚ) := [(0, 0), (300, 0)]

/-- Highway corridor of the highway-entry scenarios: one waypoint at
coordinate (600, 0), 300 m beyond the merge point. -/
def hwFix : List (ℚ × ℚ) := [(600, 0)]

/-- Highway-entry state with the pair (e1, h1) registered. -/
def stHe : HighwayEntryState :=
  { cars := []
    highway_cars := []
    entering_cars := []
    alerted_pairs := [("e1", "h1")] }

/-- Update from entering car e1 at the start of the entering corridor:
still classified "entering" but 300 m from the merge point. -/
def uE1 : CarUpdate :=
  { car_id := "e1"
    latitude := 0
    longitude := 0
    speed_kmh := some 50
    heading_deg := some 0
    timestamp := 0 }

/-- Highway-entry state with two registered pairs, one involving car h6. -/
def stHe2 : HighwayEntryState :=
  { cars := []
    highway_cars := []
    entering_cars := []
    alerted_pairs := [("e1", "h6"), ("a", "b")] }

/-- Update from car h6 on the highway corridor, 300 m from the merge
point. -/
def uH6 : CarUpdate :=
  { car_id := "h6"
    latitude := 600
    longitude := 0
    speed_kmh := some 50
    heading_deg := some 0
    timestamp := 0 }

/-- Pair named by a highway-entry alert. -/
def alert_pair (a : HighwayAlert) : String × String :=
  (a.entering_car_id, a.highway_car_id)

/-- Update from car1, still fast, long after the stored accident. -/
def uFast : CarUpdate :=
  { car_id := "car1"
    latitude := 0
    longitude := 0
    speed_kmh := some 50
    heading_deg := some 0
    timestamp := 1000 }

/-! ## Helper lemmas -/

/-- Reading back the key just written into a Python-style dict. -/
theorem dictGet_dictSet_self {α β : Type} [BEq α] [LawfulBEq α]
    (l : List (α × β)) (k : α) (v : β) :
    dictGet (dictSet l k v) k = some v := by
  induction l with
  | nil => simp [dictGet, dictSet]
  | cons p rest ih =>
      obtain ⟨k0, v0⟩ := p
      by_cases h : k0 == k
      · simp [dictGet, dictSet, h, List.find?]
      · simp only [dictSet, h, if_false, Bool.false_eq_true]
        simpa [dictGet, List.find?, h] using ih

/-- The expiry sweep does not change the stored event ids. -/
theorem cleanup_map_event_id (l : List Accident) (now : ℚ) :
    (AccidentDetector.cleanup_expired_accidents l now).map (·.event_id)
      = l.map (·.event_id) := by
  induction l with
  | nil => rfl
  | cons a rest ih =>
      simp only [AccidentDetector.cleanup_expired_accidents, List.map_cons] at ih ⊢
      rw [ih]
      congr 1
      split <;> rfl

/-- After the expiry sweep every accident still active is at most
`ACCIDENT_EXPIRY_S` old. -/
theorem cleanup_active_fresh (l : List Accident) (now : ℚ) :
    ∀ a ∈ AccidentDetector.cleanup_expired_accidents l now,
      a.active = true → now - a.detected_at ≤ AccidentDetector.ACCIDENT_EXPIRY_S := by
  intro a ha hact
  simp only [AccidentDetector.cleanup_expired_accidents, List.mem_map] at ha
  obtain ⟨b, _, hb⟩ := ha
  subst hb
  by_cases hc : (b.active
      && decide (now - b.detected_at > AccidentDetector.ACCIDENT_EXPIRY_S)) = true
  · rw [if_pos hc] at hact
    simp at hact
  · rw [if_neg hc] at hact ⊢
    simp only [hact, Bool.true_and, decide_eq_true_eq] at hc
    exact not_lt.mp hc

/-! ## Claims -/

/-- C1: the sudden-stop rule fires, on an update of an already-tracked car,
exactly when the previous speed is at least 30 km/h, the current speed is
at most 5 km/h, and the relative reduction is at least 0.70; each boundary
comparison is inclusive (previous exactly 30 with current exactly 5
fires), and an undefined previous or current speed never fires. -/
theorem detect_sudden_stop_rule (u : CarUpdate) (st : CarState) :
    (AccidentDetector.detect_sudden_stop u st = true ↔
      ∃ prev s, st.previous_speed_kmh = some prev ∧ u.speed_kmh = some s ∧
        prev ≥ 30 ∧ s ≤ 5 ∧ (prev - s) / prev ≥ 7/10) ∧
    (st.previous_speed_kmh = some 30 → u.speed_kmh = some 5 →
      AccidentDetector.detect_sudden_stop u st = true) ∧
    (st.previous_speed_kmh = none ∨ u.speed_kmh = none →
      AccidentDetector.detect_sudden_stop u st = false) := by
  refine ⟨?_, ?_, ?_⟩
  · rcases hp : st.previous_speed_kmh with _ | prev
    · simp [AccidentDetector.detect_sudden_stop, hp]
    · rcases hs : u.speed_kmh with _ | s
      · simp [AccidentDetector.detect_sudden_stop, hp, hs]
      · simp only [AccidentDetector.detect_sudden_stop, hp, hs,
          Option.some.injEq]
        constructor
        · intro h
          by_cases h1 : prev < AccidentDetector.MIN_SPEED_BEFORE_STOP
          · rw [if_pos h1] at h
            exact absurd h (by simp)
          · rw [if_neg h1] at h
            by_cases h2 : s > AccidentDetector.STOPPED_THRESHOLD_KMH
            · rw [if_pos h2] at h
              exact absurd h (by simp)
            · rw [if_neg h2] at h
              refine ⟨prev, s, rfl, rfl, ?_, ?_, ?_⟩
              · simp only [AccidentDetector.MIN_SPEED_BEFORE_STOP] at h1
                linarith [not_lt.mp h1]
              · simp only [AccidentDetector.STOPPED_THRESHOLD_KMH] at h2
                linarith [not_lt.mp h2]
              · simp only [decide_eq_true_eq,
                  AccidentDetector.SPEED_DROP_PERCENT] at h
                linarith
        · rintro ⟨prev', s', hp', hs', h30, h5, h70⟩
          obtain rfl : prev' = prev := by exact hp'.symm
          obtain rfl : s' = s := by exact hs'.symm
          rw [if_neg (by
              simp only [AccidentDetector.MIN_SPEED_BEFORE_STOP, not_lt]
              exact h30),
            if_neg (by
              simp only [AccidentDetector.STOPPED_THRESHOLD_KMH, not_lt]
              exact h5)]
          simpa [AccidentDetector.SPEED_DROP_PERCENT] using h70
  · intro hp hs
    simp [AccidentDetector.detect_sudden_stop, hp, hs,
      AccidentDetector.MIN_SPEED_BEFORE_STOP,
      AccidentDetector.STOPPED_THRESHOLD_KMH,
      AccidentDetector.SPEED_DROP_PERCENT]
    norm_num
  · rintro (hp | hs)
    · simp [AccidentDetector.detect_sudden_stop, hp]
    · rcases hp : st.previous_speed_kmh with _ | prev <;>
        simp [AccidentDetector.detect_sudden_stop, hp, hs]

/-- Witness for C1: the boundary pair (previous 30 km/h, current 5 km/h)
fires the sudden-stop rule. -/
theorem detect_sudden_stop_rule_witness :
    AccidentDetector.detect_sudden_stop uBoundary carBoundary = true :=
  (detect_sudden_stop_rule uBoundary carBoundary).2.1 rfl rfl

/-- C2: whenever some stored accident is still active, lies within
`PROXIMITY_RADIUS_M` of the updating car's location, and was detected less
than `ACCIDENT_COOLDOWN_S` ago, processing the update creates no new
accident: the stored event ids and the event counter are unchanged (this
holds whether or not the update is a sudden stop, so in particular for a
second sudden stop inside the cooldown window). -/
theorem accident_cooldown_gate (g : Geo) (st : AccidentDetectorState)
    (u : CarUpdate) (now : ℚ) (ex : CarState) (a : Accident)
    (hex : dictGet st.cars u.car_id = some ex)
    (ha : a ∈ st.active_accidents) (hact : a.active = true)
    (hdist : g.haversine_distance_m u.latitude u.longitude a.latitude
      a.longitude ≤ AccidentDetector.PROXIMITY_RADIUS_M)
    (htime : now - a.detected_at < AccidentDetector.ACCIDENT_COOLDOWN_S) :
    (AccidentDetector.on_car_update g st u now).1.active_accidents.map
        (·.event_id) = st.active_accidents.map (·.event_id) ∧
    (AccidentDetector.on_car_update g st u now).1.event_counter
      = st.event_counter := by
  have hcool : AccidentDetector.check_accident_cooldown g st.active_accidents
      now u.latitude u.longitude = true := by
    simp only [AccidentDetector.check_accident_cooldown, List.any_eq_true]
    exact ⟨a, ha, by simp [hact, hdist, htime]⟩
  simp only [AccidentDetector.on_car_update, hex, hcool, Bool.not_true,
    Bool.and_false, Bool.false_eq_true, if_false]
  exact ⟨cleanup_map_event_id _ _, trivial⟩

/-- Witness for C2: car1's second sudden stop 10 s after its first
accident, at the same spot, creates no second accident record and no new
accident id. -/
theorem accident_cooldown_gate_witness :
    (AccidentDetector.on_car_update gZero stC2 uC2 10).1.active_accidents.map
        (·.event_id) = ["ACC-0-1"] ∧
    (AccidentDetector.on_car_update gZero stC2 uC2 10).1.event_counter = 1 := by
  have h := accident_cooldown_gate gZero stC2 uC2 10 car1Fix accFix
    rfl (by simp [stC2]) rfl
    (by norm_num [gZero, AccidentDetector.PROXIMITY_RADIUS_M])
    (by norm_num [accFix, AccidentDetector.ACCIDENT_COOLDOWN_S])
  exact ⟨h.1.trans rfl, h.2.trans rfl⟩

/-- Packaging lemma: appending one optional element does not disturb the
prefix of mapped event ids. -/
theorem map_event_id_if_append (c : Bool) (A : List Accident) (acc : Accident) :
    ∃ l, ((if c then A ++ [acc] else A).map (·.event_id))
      = A.map (·.event_id) ++ l := by
  cases c
  · exact ⟨[], by simp⟩
  · exact ⟨[acc.event_id], by simp⟩

/-- C3 (amended): notifications sent when an accident is created are
published both to `alerts/accident/<car_id>` and to the general topic
`alerts/accident`; notifications produced by the continuous re-evaluation
of an update against still-active accidents are published only to the
per-car topic of the updating car. -/
theorem accident_notification_topics (g : Geo)
    (cars : List (String × CarState)) (accident : Accident) (now : ℚ)
    (st : AccidentDetectorState) (u : CarUpdate) :
    ((AccidentDetector.notify_nearby_vehicles g cars accident now).map
        (·.topic)
      = cars.flatMap (fun p =>
          if AccidentDetector.should_notify_car g p.2 accident then
            ["alerts/accident/" ++ p.1, "alerts/accident"]
          else [])) ∧
    (∀ ex, dictGet st.cars u.car_id = some ex →
      AccidentDetector.detect_sudden_stop u
        { ex with previous_speed_kmh := ex.speed_kmh } = false →
      ∀ p ∈ (AccidentDetector.on_car_update g st u now).2,
        p.topic = "alerts/accident/" ++ u.car_id) := by
  constructor
  · rw [AccidentDetector.notify_nearby_vehicles, List.map_flatMap]
    congr 1
    funext p
    split <;> rfl
  · intro ex hex hdet p hp
    simp only [AccidentDetector.on_car_update, hex, hdet, Bool.false_and,
      Bool.false_eq_true, if_false, List.nil_append] at hp
    simp only [List.mem_filterMap] at hp
    obtain ⟨a, _, ha⟩ := hp
    split at ha
    all_goals cases ha
    all_goals rfl

/-- Witness for C3 (amended): on car2's update against the stored active
accident ahead of it, the single re-evaluation notification goes to
`alerts/accident/car2` only, while a creation-time notification round for
the same car carries both topics. -/
theorem accident_notification_topics_witness :
    (∀ p ∈ (AccidentDetector.on_car_update gZero stC3 uC3 1).2,
      p.topic = "alerts/accident/" ++ uC3.car_id) ∧
    ((AccidentDetector.notify_nearby_vehicles gZero stC3.cars accFix 1).map
        (·.topic)
      = stC3.cars.flatMap (fun p =>
          if AccidentDetector.should_notify_car gZero p.2 accFix then
            ["alerts/accident/" ++ p.1, "alerts/accident"]
          else [])) := by
  have h := accident_notification_topics gZero stC3.cars accFix 1 stC3 uC3
  exact ⟨h.2 car2Fix rfl (by norm_num [AccidentDetector.detect_sudden_stop,
    car2Fix, uC3, AccidentDetector.MIN_SPEED_BEFORE_STOP]), h.1⟩

/-- Counterexample for C3: a qualifying re-evaluation notification is
published once, to the per-car topic only — the general topic
`alerts/accident` receives nothing for it. -/
theorem accident_notification_topics_counterexample :
    ((AccidentDetector.on_car_update gZero stC3 uC3 1).2.map (·.topic))
      = ["alerts/accident/car2"] ∧
    ¬ "alerts/accident" ∈
      ((AccidentDetector.on_car_update gZero stC3 uC3 1).2.map (·.topic)) := by
  have hne : ¬ ("car2" : String) = "car1" := by decide
  have h : ((AccidentDetector.on_car_update gZero stC3 uC3 1).2.map (·.topic))
      = ["alerts/accident/car2"] := by
    norm_num [AccidentDetector.on_car_update, stC3, uC3, gZero, car2Fix,
      accFix, hne, dictGet, dictSet, List.find?,
      AccidentDetector.detect_sudden_stop,
      AccidentDetector.should_notify_car, AccidentDetector.is_accident_ahead,
      AccidentDetector.MIN_SPEED_BEFORE_STOP,
      AccidentDetector.STOPPED_THRESHOLD_KMH,
      AccidentDetector.NOTIFICATION_RADIUS_M,
      AccidentDetector.cleanup_expired_accidents,
      AccidentDetector.ACCIDENT_EXPIRY_S, List.filterMap_cons]
    decide
  refine ⟨h, ?_⟩
  rw [h]
  simp

/-- C4 (amended): after every processed update of an already-tracked car,
every stored accident still marked active has age at most
`ACCIDENT_EXPIRY_S`, and accidents are only added, never deleted (the
sweep flips stale ones to inactive in place).  The first-ever update of a
previously unseen car returns before the sweep runs, so it is excluded. -/
theorem expiry_sweep_tracked (g : Geo) (st : AccidentDetectorState)
    (u : CarUpdate) (now : ℚ) (ex : CarState)
    (hex : dictGet st.cars u.car_id = some ex) :
    (∀ a ∈ (AccidentDetector.on_car_update g st u now).1.active_accidents,
        a.active = true →
          now - a.detected_at ≤ AccidentDetector.ACCIDENT_EXPIRY_S) ∧
    (∃ l, (AccidentDetector.on_car_update g st u now).1.active_accidents.map
        (·.event_id) = st.active_accidents.map (·.event_id) ++ l) := by
  simp only [AccidentDetector.on_car_update, hex]
  constructor
  · intro a ha
    exact cleanup_active_fresh _ _ a ha
  · rw [cleanup_map_event_id]
    exact map_event_id_if_append _ _ _

/-- Witness for C4 (amended): a tracked car's routine update flips the
1000 s old accident to inactive, so every accident still active afterwards
is fresh. -/
theorem expiry_sweep_tracked_witness :
    (∀ a ∈ (AccidentDetector.on_car_update gZero stC2 uFast 1000).1.active_accidents,
        a.active = true →
          (1000 : ℚ) - a.detected_at ≤ AccidentDetector.ACCIDENT_EXPIRY_S) ∧
    (∃ l, (AccidentDetector.on_car_update gZero stC2 uFast 1000).1.active_accidents.map
        (·.event_id) = stC2.active_accidents.map (·.event_id) ++ l) :=
  expiry_sweep_tracked gZero stC2 uFast 1000 car1Fix rfl

/-- Counterexample for C4: the first-ever update for a previously unseen
car returns before the expiry sweep, leaving a 1000 s old accident still
marked active. -/
theorem expiry_sweep_counterexample :
    (AccidentDetector.on_car_update gZero stC4 uC4 1000).1.active_accidents
      = [accFix] ∧ accFix.active = true ∧
    (1000 : ℚ) - accFix.detected_at > AccidentDetector.ACCIDENT_EXPIRY_S := by
  refine ⟨rfl, rfl, ?_⟩
  norm_num [accFix, AccidentDetector.ACCIDENT_EXPIRY_S]

/-- C5: with a stored prior position and `dt = now - last_ts > 0.05 s`, the
emitted speed is `3.6 * haversine / dt` unless that value lies outside
[0, 600] km/h (then undefined), and the emitted heading is the bearing
from the previous to the current point exactly when the travelled distance
exceeds 1.0 m; with `dt ≤ 0.05 s` both are undefined. -/
theorem handle_raw_gps_derivation (g : Geo) (st : PositionProcessorState)
    (car_id : String) (lat lon now last_lat last_lon last_ts : ℚ)
    (hlast : dictGet st.states car_id = some (last_lat, last_lon, last_ts)) :
    (now - last_ts > 1/20 →
      (0 ≤ g.haversine_distance_m last_lat last_lon lat lon / (now - last_ts) * (18/5) ∧
          g.haversine_distance_m last_lat last_lon lat lon / (now - last_ts) * (18/5) ≤ 600 →
        (PositionProcessor.handle_raw_gps g st car_id lat lon now).2.speed_kmh
          = some (g.haversine_distance_m last_lat last_lon lat lon / (now - last_ts) * (18/5))) ∧
      (g.haversine_distance_m last_lat last_lon lat lon / (now - last_ts) * (18/5) < 0 ∨
          600 < g.haversine_distance_m last_lat last_lon lat lon / (now - last_ts) * (18/5) →
        (PositionProcessor.handle_raw_gps g st car_id lat lon now).2.speed_kmh = none) ∧
      (g.haversine_distance_m last_lat last_lon lat lon > 1 →
        (PositionProcessor.handle_raw_gps g st car_id lat lon now).2.heading_deg
          = some (g.bearing_deg last_lat last_lon lat lon)) ∧
      (¬ g.haversine_distance_m last_lat last_lon lat lon > 1 →
        (PositionProcessor.handle_raw_gps g st car_id lat lon now).2.heading_deg = none)) ∧
    (now - last_ts ≤ 1/20 →
      (PositionProcessor.handle_raw_gps g st car_id lat lon now).2.speed_kmh = none ∧
      (PositionProcessor.handle_raw_gps g st car_id lat lon now).2.heading_deg = none) := by
  constructor
  · intro hdt
    refine ⟨?_, ?_, ?_, ?_⟩
    · rintro ⟨h0, h600⟩
      simp only [PositionProcessor.handle_raw_gps, hlast, if_pos hdt]
      rw [if_neg]
      push_neg
      exact ⟨h600, h0⟩
    · intro hout
      simp only [PositionProcessor.handle_raw_gps, hlast, if_pos hdt]
      rw [if_pos]
      rcases hout with h | h
      · exact Or.inr h
      · exact Or.inl h
    · intro hd
      simp only [PositionProcessor.handle_raw_gps, hlast, if_pos hdt,
        if_pos hd]
    · intro hd
      simp only [PositionProcessor.handle_raw_gps, hlast, if_pos hdt,
        if_neg hd]
  · intro hdt
    have hdt' : ¬ now - last_ts > 1/20 := not_lt.mpr hdt
    constructor <;>
      simp only [PositionProcessor.handle_raw_gps, hlast, if_neg hdt']

/-- Witness for C5: two samples 10 m apart and 1 s apart give 36 km/h and
a defined heading. -/
theorem handle_raw_gps_derivation_witness :
    (PositionProcessor.handle_raw_gps gTen stPos "carA" 0 1 1).2.speed_kmh
        = some 36 ∧
    (PositionProcessor.handle_raw_gps gTen stPos "carA" 0 1 1).2.heading_deg
        = some 0 := by
  have h := handle_raw_gps_derivation gTen stPos "carA" 0 1 1 0 0 0 rfl
  have h1 := (h.1 (by norm_num)).1 (by norm_num [gTen])
  have h2 := (h.1 (by norm_num)).2.2.1 (by norm_num [gTen])
  refine ⟨h1.trans ?_, h2.trans rfl⟩
  norm_num [gTen]

/-- C6: a sample for a car with no stored prior position stores
`(lat, lon, now)` as the car's last position and emits no speed and no
heading for that sample. -/
theorem handle_raw_gps_first_sighting (g : Geo) (st : PositionProcessorState)
    (car_id : String) (lat lon now : ℚ)
    (hnone : dictGet st.states car_id = none) :
    dictGet (PositionProcessor.handle_raw_gps g st car_id lat lon now).1.states
        car_id = some (lat, lon, now) ∧
    (PositionProcessor.handle_raw_gps g st car_id lat lon now).2.speed_kmh
      = none ∧
    (PositionProcessor.handle_raw_gps g st car_id lat lon now).2.heading_deg
      = none := by
  refine ⟨?_, ?_, ?_⟩
  · simp only [PositionProcessor.handle_raw_gps]
    exact dictGet_dictSet_self st.states car_id (lat, lon, now)
  · simp only [PositionProcessor.handle_raw_gps, hnone]
  · simp only [PositionProcessor.handle_raw_gps, hnone]

/-- Witness for C6: the first sample of carB is stored and carries no
derivative. -/
theorem handle_raw_gps_first_sighting_witness :
    dictGet (PositionProcessor.handle_raw_gps gTen stPosEmpty "carB" 2 3 7).1.states
        "carB" = some (2, 3, 7) ∧
    (PositionProcessor.handle_raw_gps gTen stPosEmpty "carB" 2 3 7).2.speed_kmh
      = none ∧
    (PositionProcessor.handle_raw_gps gTen stPosEmpty "carB" 2 3 7).2.heading_deg
      = none :=
  handle_raw_gps_first_sighting gTen stPosEmpty "carB" 2 3 7 rfl

/-- Evaluation of the pairwise scan for a cars map holding exactly the
other car B and the updating car itself, with all gates towards B
passing: the new projection sign is stored for the ordered pair, and the
event fires exactly on a stored +1 followed by a computed -1. -/
theorem ot_scan_pair (g : Geo) (u : CarUpdate) (uh : ℚ) (bId : String)
    (b : CarUpdate) (bh bs : ℚ) (rel : List ((String × String) × Int))
    (now : ℚ)
    (hne : (bId == u.car_id) = false)
    (hbh : b.heading_deg = some bh) (hbs : b.speed_kmh = some bs)
    (hg1 : ¬ min |uh - bh| (360 - |uh - bh|)
        > OvertakingDetector.HEADING_TOLERANCE_DEG)
    (hg2 : ¬ g.haversine_distance_m u.latitude u.longitude b.latitude
        b.longitude > OvertakingDetector.PROXIMITY_M) :
    OvertakingDetector.scan g [(bId, b), (u.car_id, u)] u uh rel now =
      (dictSet rel (u.car_id, bId)
        (OvertakingDetector.projection_sign g u.longitude u.latitude
          b.longitude b.latitude uh),
       if dictGet rel (u.car_id, bId) == some 1
          && OvertakingDetector.projection_sign g u.longitude u.latitude
               b.longitude b.latitude uh == -1 then
         [{ overtaking_car_id := u.car_id
            overtaken_car_id := bId
            speed_kmh := u.speed_kmh
            timestamp := now
            latitude := u.latitude
            longitude := u.longitude }]
       else []) := by
  simp only [OvertakingDetector.scan, List.foldl_cons, List.foldl_nil, hne,
    hbh, hbs, Bool.false_eq_true, if_false, if_neg hg1, if_neg hg2,
    beq_self_eq_true, if_true, List.nil_append]

/-- Evaluation of one full overtaking-detector step for an update with
speed and heading whose saved cars map is exactly B followed by the
updating car, with all gates towards B passing. -/
theorem ot_step_two_cars (g : Geo) (st : OvertakingDetectorState)
    (u b : CarUpdate) (bId : String) (us uh bh bs : ℚ) (now : ℚ)
    (hus : u.speed_kmh = some us) (huh : u.heading_deg = some uh)
    (hbh : b.heading_deg = some bh) (hbs : b.speed_kmh = some bs)
    (hne : (bId == u.car_id) = false)
    (hcars : dictSet st.cars u.car_id u = [(bId, b), (u.car_id, u)])
    (hg1 : ¬ min |uh - bh| (360 - |uh - bh|)
        > OvertakingDetector.HEADING_TOLERANCE_DEG)
    (hg2 : ¬ g.haversine_distance_m u.latitude u.longitude b.latitude
        b.longitude > OvertakingDetector.PROXIMITY_M) :
    OvertakingDetector.on_car_update g st u now =
      ({ cars := [(bId, b), (u.car_id, u)]
         relative_positions := dictSet st.relative_positions (u.car_id, bId)
           (OvertakingDetector.projection_sign g u.longitude u.latitude
             b.longitude b.latitude uh) },
       if dictGet st.relative_positions (u.car_id, bId) == some 1
          && OvertakingDetector.projection_sign g u.longitude u.latitude
               b.longitude b.latitude uh == -1 then
         [{ overtaking_car_id := u.car_id
            overtaken_car_id := bId
            speed_kmh := u.speed_kmh
            timestamp := now
            latitude := u.latitude
            longitude := u.longitude }]
       else []) := by
  simp only [OvertakingDetector.on_car_update, hus, huh, hcars,
    ot_scan_pair g u uh bId b bh bs st.relative_positions now hne hbh hbs
      hg1 hg2]

/-- C7: for an ordered pair (A, B) passing the defined-speed/heading,
co-direction and proximity gates, an overtaking event naming A overtaking
B is emitted exactly when the stored previous sign for (A, B) is +1 and
the newly computed projection sign is -1 (no event when no sign is
stored), the new sign is always stored; consequently the sign sequence
+1, +1, -1 over three updates of A yields exactly one event, at the
transition. -/
theorem overtaking_transition_rule (g : Geo) (bId : String) (b : CarUpdate)
    (bh bs now : ℚ)
    (hbh : b.heading_deg = some bh) (hbs : b.speed_kmh = some bs) :
    (∀ (st : OvertakingDetectorState) (u : CarUpdate) (us uh : ℚ),
      u.speed_kmh = some us → u.heading_deg = some uh →
      (bId == u.car_id) = false →
      dictSet st.cars u.car_id u = [(bId, b), (u.car_id, u)] →
      ¬ min |uh - bh| (360 - |uh - bh|)
          > OvertakingDetector.HEADING_TOLERANCE_DEG →
      ¬ g.haversine_distance_m u.latitude u.longitude b.latitude b.longitude
          > OvertakingDetector.PROXIMITY_M →
      dictGet (OvertakingDetector.on_car_update g st u now).1.relative_positions
          (u.car_id, bId)
        = some (OvertakingDetector.projection_sign g u.longitude u.latitude
            b.longitude b.latitude uh) ∧
      (OvertakingDetector.on_car_update g st u now).2
        = (if dictGet st.relative_positions (u.car_id, bId) == some 1
              && OvertakingDetector.projection_sign g u.longitude u.latitude
                   b.longitude b.latitude uh == -1 then
            [{ overtaking_car_id := u.car_id
               overtaken_car_id := bId
               speed_kmh := u.speed_kmh
               timestamp := now
               latitude := u.latitude
               longitude := u.longitude }]
          else [])) ∧
    (∀ (st0 : OvertakingDetectorState) (u1 u2 u3 : CarUpdate)
       (us1 uh1 us2 uh2 us3 uh3 : ℚ),
      u1.speed_kmh = some us1 → u1.heading_deg = some uh1 →
      u2.speed_kmh = some us2 → u2.heading_deg = some uh2 →
      u3.speed_kmh = some us3 → u3.heading_deg = some uh3 →
      u2.car_id = u1.car_id → u3.car_id = u1.car_id →
      (bId == u1.car_id) = false →
      st0.cars = [(bId, b)] →
      dictGet st0.relative_positions (u1.car_id, bId) = none →
      ¬ min |uh1 - bh| (360 - |uh1 - bh|)
          > OvertakingDetector.HEADING_TOLERANCE_DEG →
      ¬ g.haversine_distance_m u1.latitude u1.longitude b.latitude
          b.longitude > OvertakingDetector.PROXIMITY_M →
      ¬ min |uh2 - bh| (360 - |uh2 - bh|)
          > OvertakingDetector.HEADING_TOLERANCE_DEG →
      ¬ g.haversine_distance_m u2.latitude u2.longitude b.latitude
          b.longitude > OvertakingDetector.PROXIMITY_M →
      ¬ min |uh3 - bh| (360 - |uh3 - bh|)
          > OvertakingDetector.HEADING_TOLERANCE_DEG →
      ¬ g.haversine_distance_m u3.latitude u3.longitude b.latitude
          b.longitude > OvertakingDetector.PROXIMITY_M →
      OvertakingDetector.projection_sign g u1.longitude u1.latitude
          b.longitude b.latitude uh1 = 1 →
      OvertakingDetector.projection_sign g u2.longitude u2.latitude
          b.longitude b.latitude uh2 = 1 →
      OvertakingDetector.projection_sign g u3.longitude u3.latitude
          b.longitude b.latitude uh3 = -1 →
      (OvertakingDetector.on_car_update g st0 u1 now).2 = [] ∧
      (OvertakingDetector.on_car_update g
          (OvertakingDetector.on_car_update g st0 u1 now).1 u2 now).2 = [] ∧
      (OvertakingDetector.on_car_update g
          (OvertakingDetector.on_car_update g
            (OvertakingDetector.on_car_update g st0 u1 now).1 u2 now).1
          u3 now).2
        = [{ overtaking_car_id := u3.car_id
             overtaken_car_id := bId
             speed_kmh := u3.speed_kmh
             timestamp := now
             latitude := u3.latitude
             longitude := u3.longitude }]) := by
  constructor
  · intro st u us uh hus huh hne hcars hg1 hg2
    have e := ot_step_two_cars g st u b bId us uh bh bs now hus huh hbh hbs
      hne hcars hg1 hg2
    rw [e]
    exact ⟨dictGet_dictSet_self _ _ _, rfl⟩
  · intro st0 u1 u2 u3 us1 uh1 us2 uh2 us3 uh3 hus1 huh1 hus2 huh2 hus3 huh3
      h21 h31 hne hst0 hrel0 hg11 hg12 hg21 hg22 hg31 hg32 hs1 hs2 hs3
    have hne2 : (bId == u2.car_id) = false := by rw [h21]; exact hne
    have hne3 : (bId == u3.car_id) = false := by rw [h31]; exact hne
    have hcars1 : dictSet st0.cars u1.car_id u1
        = [(bId, b), (u1.car_id, u1)] := by
      rw [hst0]
      simp [dictSet, hne]
    have e1 := ot_step_two_cars g st0 u1 b bId us1 uh1 bh bs now hus1 huh1
      hbh hbs hne hcars1 hg11 hg12
    rw [hs1] at e1
    have a1 : (OvertakingDetector.on_car_update g st0 u1 now).2 = [] := by
      rw [e1]
      simp [hrel0]
    have hcars2 : dictSet
        (OvertakingDetector.on_car_update g st0 u1 now).1.cars u2.car_id u2
        = [(bId, b), (u2.car_id, u2)] := by
      rw [e1, h21]
      simp [dictSet, hne]
    have e2 := ot_step_two_cars g
      (OvertakingDetector.on_car_update g st0 u1 now).1 u2 b bId us2 uh2 bh
      bs now hus2 huh2 hbh hbs hne2 hcars2 hg21 hg22
    rw [hs2] at e2
    have a2 : (OvertakingDetector.on_car_update g
        (OvertakingDetector.on_car_update g st0 u1 now).1 u2 now).2 = [] := by
      rw [e2]
      simp
    have hcars3 : dictSet
        (OvertakingDetector.on_car_update g
          (OvertakingDetector.on_car_update g st0 u1 now).1 u2 now).1.cars
        u3.car_id u3 = [(bId, b), (u3.car_id, u3)] := by
      rw [e2, h21, h31]
      simp [dictSet, hne]
    have e3 := ot_step_two_cars g
      (OvertakingDetector.on_car_update g
        (OvertakingDetector.on_car_update g st0 u1 now).1 u2 now).1 u3 b bId
      us3 uh3 bh bs now hus3 huh3 hbh hbs hne3 hcars3 hg31 hg32
    rw [hs3] at e3
    have hget2 : dictGet (OvertakingDetector.on_car_update g
        (OvertakingDetector.on_car_update g st0 u1 now).1 u2 now).1.relative_positions
        (u3.car_id, bId) = some 1 := by
      rw [e2, h21, h31]
      exact dictGet_dictSet_self _ _ _
    have a3 : (OvertakingDetector.on_car_update g
        (OvertakingDetector.on_car_update g
          (OvertakingDetector.on_car_update g st0 u1 now).1 u2 now).1
        u3 now).2
        = [{ overtaking_car_id := u3.car_id
             overtaken_car_id := bId
             speed_kmh := u3.speed_kmh
             timestamp := now
             latitude := u3.latitude
             longitude := u3.longitude }] := by
      rw [e3, hget2]
      simp
    exact ⟨a1, a2, a3⟩

/-- Witness for C7: with car B fixed at latitude 5 and car A reporting
latitudes 0, 3, 7 (signs +1, +1, -1), the three chained updates emit no
event, no event, and exactly one event at the transition. -/
theorem overtaking_transition_rule_witness :
    (OvertakingDetector.on_car_update gZero stOt uA1 9).2 = [] ∧
    (OvertakingDetector.on_car_update gZero
        (OvertakingDetector.on_car_update gZero stOt uA1 9).1 uA2 9).2 = [] ∧
    (OvertakingDetector.on_car_update gZero
        (OvertakingDetector.on_car_update gZero
          (OvertakingDetector.on_car_update gZero stOt uA1 9).1 uA2 9).1
        uA3 9).2
      = [{ overtaking_car_id := uA3.car_id
           overtaken_car_id := "B"
           speed_kmh := uA3.speed_kmh
           timestamp := 9
           latitude := uA3.latitude
           longitude := uA3.longitude }] := by
  have hmin : ¬ min |(0:ℚ) - 0| (360 - |(0:ℚ) - 0|)
      > OvertakingDetector.HEADING_TOLERANCE_DEG := by
    norm_num [OvertakingDetector.HEADING_TOLERANCE_DEG]
  have hdist : ∀ a b c d : ℚ, ¬ gZero.haversine_distance_m a b c d
      > OvertakingDetector.PROXIMITY_M := by
    intro a b c d
    norm_num [gZero, OvertakingDetector.PROXIMITY_M]
  refine (overtaking_transition_rule gZero "B" carB 0 10 9 rfl rfl).2 stOt
    uA1 uA2 uA3 10 0 10 0 10 0 rfl rfl rfl rfl rfl rfl rfl rfl rfl rfl rfl
    hmin (hdist _ _ _ _) hmin (hdist _ _ _ _) hmin (hdist _ _ _ _) ?_ ?_ ?_
  · norm_num [OvertakingDetector.projection_sign, gZero, uA1, carB]
  · norm_num [OvertakingDetector.projection_sign, gZero, uA2, carB]
  · norm_num [OvertakingDetector.projection_sign, gZero, uA3, carB]

/-- C8 (amended): an inbound update carrying both speed and heading is
stored in the per-car map first — the map afterwards holds exactly that
update for the car — and the pairwise scan then runs over the updated
map; an update lacking speed or heading is dropped without storing and
without scanning. -/
theorem ot_state_update_frame (g : Geo) (st : OvertakingDetectorState)
    (u : CarUpdate) (now : ℚ) :
    (∀ us uh, u.speed_kmh = some us → u.heading_deg = some uh →
      (OvertakingDetector.on_car_update g st u now).1.cars
          = dictSet st.cars u.car_id u ∧
      dictGet (OvertakingDetector.on_car_update g st u now).1.cars u.car_id
          = some u ∧
      OvertakingDetector.on_car_update g st u now
        = ({ cars := dictSet st.cars u.car_id u
             relative_positions := (OvertakingDetector.scan g
               (dictSet st.cars u.car_id u) u uh st.relative_positions
               now).1 },
           (OvertakingDetector.scan g (dictSet st.cars u.car_id u) u uh
             st.relative_positions now).2)) ∧
    (u.speed_kmh = none ∨ u.heading_deg = none →
      OvertakingDetector.on_car_update g st u now = (st, [])) := by
  constructor
  · intro us uh hus huh
    simp only [OvertakingDetector.on_car_update, hus, huh]
    exact ⟨trivial, dictGet_dictSet_self _ _ _, trivial⟩
  · rintro (h | h)
    · simp only [OvertakingDetector.on_car_update, h]
    · rcases hs : u.speed_kmh with _ | s <;>
        simp only [OvertakingDetector.on_car_update, hs, h]

/-- Witness for C8 (amended): a first update with speed and heading is
stored, readable back from the per-car map. -/
theorem ot_state_update_frame_witness :
    (OvertakingDetector.on_car_update gZero ⟨[], []⟩ uA1 9).1.cars
      = dictSet ([] : List (String × CarUpdate)) uA1.car_id uA1 ∧
    dictGet (OvertakingDetector.on_car_update gZero ⟨[], []⟩ uA1 9).1.cars
        uA1.car_id = some uA1 := by
  have h := (ot_state_update_frame gZero ⟨[], []⟩ uA1 9).1 10 0 rfl rfl
  exact ⟨h.1, h.2.1⟩

/-- Counterexample for C8: an inbound update without a speed value is not
stored — afterwards the per-car map still lacks the car. -/
theorem ot_state_update_counterexample :
    uNoSpeed.speed_kmh = none ∧
    (OvertakingDetector.on_car_update gZero ⟨[], []⟩ uNoSpeed 0).1.cars
      = [] ∧
    dictGet (OvertakingDetector.on_car_update gZero ⟨[], []⟩ uNoSpeed 0).1.cars
        uNoSpeed.car_id = none := by
  exact ⟨rfl, rfl, rfl⟩

/-- The pair named by an alert chosen between two alternatives with the
same pair. -/
theorem alert_pair_ite (c : Bool) (x y : HighwayAlert) (p : String × String)
    (hx : alert_pair x = p) (hy : alert_pair y = p) :
    alert_pair (if c then x else y) = p := by
  cases c
  · simpa using hy
  · simpa using hx

/-- One scan iteration preserves the alert-registry invariant: the
pre-existing registry `base` stays registered, every accumulated alert's
pair is registered but was not in `base`, and accumulated alerts name
pairwise distinct pairs. -/
theorem scan_highway_step_inv (g : Geo) (ent : List (ℚ × ℚ))
    (cars1 : List (String × CarUpdate)) (u : CarUpdate) (now : ℚ)
    (base : List (String × String))
    (acc : List (String × String) × List HighwayAlert) (hid : String)
    (h1 : base ⊆ acc.1)
    (h2 : ∀ a ∈ acc.2, alert_pair a ∈ acc.1 ∧ alert_pair a ∉ base)
    (h3 : acc.2.Pairwise (fun a b => alert_pair a ≠ alert_pair b)) :
    base ⊆ (HighwayEntryDetector.scan_highway_step g ent cars1 u now acc hid).1 ∧
    (∀ a ∈ (HighwayEntryDetector.scan_highway_step g ent cars1 u now acc hid).2,
      alert_pair a ∈
        (HighwayEntryDetector.scan_highway_step g ent cars1 u now acc hid).1 ∧
      alert_pair a ∉ base) ∧
    (HighwayEntryDetector.scan_highway_step g ent cars1 u now acc hid).2.Pairwise
      (fun a b => alert_pair a ≠ alert_pair b) := by
  rcases hdg : dictGet cars1 hid with _ | hcar
  · simp only [HighwayEntryDetector.scan_highway_step, hdg]
    exact ⟨h1, h2, h3⟩
  · rcases hhs : hcar.speed_kmh with _ | hs
    · simp only [HighwayEntryDetector.scan_highway_step, hdg, hhs]
      exact ⟨h1, h2, h3⟩
    · rcases hhh : hcar.heading_deg with _ | hh
      · simp only [HighwayEntryDetector.scan_highway_step, hdg, hhs, hhh]
        exact ⟨h1, h2, h3⟩
      · rcases hz : hs == 0 with _ | _
        · rcases hdm : HighwayEntryDetector.distance_to_merge_point g ent
              hcar.latitude hcar.longitude with _ | dm
          · simp only [HighwayEntryDetector.scan_highway_step, hdg, hhs, hhh,
              hz, Bool.false_eq_true, if_false, hdm]
            exact ⟨h1, h2, h3⟩
          · by_cases hin : dm < HighwayEntryDetector.ENTRY_ZONE_M
            · rcases hnc : acc.1.contains (u.car_id, hid) with _ | _
              · simp only [HighwayEntryDetector.scan_highway_step, hdg, hhs,
                  hhh, hz, Bool.false_eq_true, if_false, hdm, if_pos hin,
                  hnc]
                have hpknot : (u.car_id, hid) ∉ acc.1 := by
                  intro hm
                  have hel := List.elem_iff.mpr hm
                  rw [List.contains] at hnc
                  rw [hel] at hnc
                  cases hnc
                have hpair : ∀ c : Bool, alert_pair
                    (if c then
                        { alert_type := "highway_entry_unsafe"
                          entering_car_id := u.car_id
                          highway_car_id := hid
                          entering_speed_kmh := u.speed_kmh
                          highway_speed_kmh := some hs
                          predicted_min_distance_m :=
                            (HighwayEntryDetector.predict_collision g u hcar).2.2
                          time_to_closest_approach_s :=
                            some (HighwayEntryDetector.predict_collision g u hcar).2.1
                          status := "unsafe"
                          timestamp := now
                          latitude := u.latitude
                          longitude := u.longitude }
                      else
                        { alert_type := "highway_entry_safe"
                          entering_car_id := u.car_id
                          highway_car_id := hid
                          entering_speed_kmh := u.speed_kmh
                          highway_speed_kmh := some hs
                          predicted_min_distance_m :=
                            (HighwayEntryDetector.predict_collision g u hcar).2.2
                          time_to_closest_approach_s := none
                          status := "safe"
                          timestamp := now
                          latitude := u.latitude
                          longitude := u.longitude })
                    = (u.car_id, hid) := fun c =>
                  alert_pair_ite c _ _ _ rfl rfl
                refine ⟨h1.trans (List.subset_append_left _ _), ?_, ?_⟩
                · intro a ha
                  rcases List.mem_append.mp ha with ha | ha
                  · exact ⟨List.mem_append_left _ (h2 a ha).1, (h2 a ha).2⟩
                  · rw [List.mem_singleton] at ha
                    subst ha
                    rw [hpair]
                    refine ⟨List.mem_append_right _ (List.mem_singleton_self _),
                      fun hb => hpknot (h1 hb)⟩
                · refine List.pairwise_append.mpr
                    ⟨h3, List.pairwise_singleton _ _, ?_⟩
                  intro a ha b hb
                  rw [List.mem_singleton] at hb
                  subst hb
                  rw [hpair]
                  intro heq
                  exact hpknot (heq ▸ (h2 a ha).1)
              · simp only [HighwayEntryDetector.scan_highway_step, hdg, hhs,
                  hhh, hz, Bool.false_eq_true, if_false, hdm, if_pos hin,
                  hnc, if_true]
                exact ⟨h1, h2, h3⟩
            · simp only [HighwayEntryDetector.scan_highway_step, hdg, hhs,
                hhh, hz, Bool.false_eq_true, if_false, hdm, if_neg hin]
              exact ⟨h1, h2, h3⟩
        · simp only [HighwayEntryDetector.scan_highway_step, hdg, hhs, hhh,
            hz, if_true]
          exact ⟨h1, h2, h3⟩

/-- The whole scan preserves the alert-registry invariant. -/
theorem scan_highway_fold_inv (g : Geo) (ent : List (ℚ × ℚ))
    (cars1 : List (String × CarUpdate)) (u : CarUpdate) (now : ℚ)
    (base : List (String × String)) :
    ∀ (hws : List String) (acc : List (String × String) × List HighwayAlert),
      base ⊆ acc.1 →
      (∀ a ∈ acc.2, alert_pair a ∈ acc.1 ∧ alert_pair a ∉ base) →
      acc.2.Pairwise (fun a b => alert_pair a ≠ alert_pair b) →
      base ⊆ (hws.foldl (HighwayEntryDetector.scan_highway_step g ent cars1 u now) acc).1 ∧
      (∀ a ∈ (hws.foldl (HighwayEntryDetector.scan_highway_step g ent cars1 u now) acc).2,
        alert_pair a ∈ (hws.foldl (HighwayEntryDetector.scan_highway_step g ent cars1 u now) acc).1 ∧
        alert_pair a ∉ base) ∧
      (hws.foldl (HighwayEntryDetector.scan_highway_step g ent cars1 u now) acc).2.Pairwise
        (fun a b => alert_pair a ≠ alert_pair b) := by
  intro hws
  induction hws with
  | nil => intro acc ha hb hc; exact ⟨ha, hb, hc⟩
  | cons hd tl ih =>
      intro acc ha hb hc
      have h := scan_highway_step_inv g ent cars1 u now base acc hd ha hb hc
      exact ih _ h.1 h.2.1 h.2.2

/-- The alert-registry invariant instantiated for a scan started from the
current registry with no alerts yet. -/
theorem scan_highway_cars_inv (g : Geo) (ent : List (ℚ × ℚ))
    (cars1 : List (String × CarUpdate)) (u : CarUpdate) (now : ℚ)
    (hws : List String) (alerted0 : List (String × String)) :
    alerted0 ⊆ (HighwayEntryDetector.scan_highway_cars g ent cars1 u now hws alerted0).1 ∧
    (∀ a ∈ (HighwayEntryDetector.scan_highway_cars g ent cars1 u now hws alerted0).2,
      alert_pair a ∈ (HighwayEntryDetector.scan_highway_cars g ent cars1 u now hws alerted0).1 ∧
      alert_pair a ∉ alerted0) ∧
    (HighwayEntryDetector.scan_highway_cars g ent cars1 u now hws alerted0).2.Pairwise
      (fun a b => alert_pair a ≠ alert_pair b) :=
  scan_highway_fold_inv g ent cars1 u now alerted0 hws (alerted0, [])
    (fun _ hx => hx) (fun a ha => absurd ha (List.not_mem_nil a))
    (List.Pairwise.nil)

/-- Case analysis of one highway-entry step: either it emits no alerts and
leaves the registry unchanged or filtered by the updating car's id, or the
update took the entering branch into the scan and both outputs come from
`scan_highway_cars` seeded with the current registry. -/
theorem he_step_shape (g : Geo) (hw ent : List (ℚ × ℚ))
    (st : HighwayEntryState) (u : CarUpdate) (now : ℚ) :
    ((HighwayEntryDetector.on_car_update g hw ent st u now).2 = [] ∧
     ((HighwayEntryDetector.on_car_update g hw ent st u now).1.alerted_pairs
        = st.alerted_pairs ∨
      (HighwayEntryDetector.on_car_update g hw ent st u now).1.alerted_pairs
        = st.alerted_pairs.filter
            (fun pr => !(pr.1 == u.car_id || pr.2 == u.car_id)))) ∨
    (∃ hws,
      (HighwayEntryDetector.on_car_update g hw ent st u now).1.alerted_pairs
        = (HighwayEntryDetector.scan_highway_cars g ent
            (dictSet st.cars u.car_id u) u now hws st.alerted_pairs).1 ∧
      (HighwayEntryDetector.on_car_update g hw ent st u now).2
        = (HighwayEntryDetector.scan_highway_cars g ent
            (dictSet st.cars u.car_id u) u now hws st.alerted_pairs).2) := by
  rcases hsp : u.speed_kmh with _ | s
  · left
    simp [HighwayEntryDetector.on_car_update, hsp]
  · rcases hhd : u.heading_deg with _ | hd
    · left
      simp [HighwayEntryDetector.on_car_update, hsp, hhd]
    · rcases hz : s == 0 with _ | _
      · rcases hce : HighwayEntryDetector.classify_car g hw ent u
            == some "entering" with _ | _
        · rcases hch : HighwayEntryDetector.classify_car g hw ent u
              == some "highway" with _ | _
          · left
            simp [HighwayEntryDetector.on_car_update, hsp, hhd, hz, hce, hch]
          · rcases hdm : HighwayEntryDetector.distance_to_merge_point g ent
                u.latitude u.longitude with _ | dm
            · left
              simp [HighwayEntryDetector.on_car_update, hsp, hhd, hz, hce,
                hch, hdm]
            · rcases hfar : decide
                  (dm > HighwayEntryDetector.ENTRY_ZONE_M * 2) with _ | _
              · left
                simp [HighwayEntryDetector.on_car_update, hsp, hhd, hz, hce,
                  hch, hdm, hfar]
              · left
                refine ⟨?_, Or.inr ?_⟩ <;>
                  simp [HighwayEntryDetector.on_car_update, hsp, hhd, hz,
                    hce, hch, hdm, hfar]
        · rcases hdm : HighwayEntryDetector.distance_to_merge_point g ent
              u.latitude u.longitude with _ | dm
          · left
            simp [HighwayEntryDetector.on_car_update, hsp, hhd, hz, hce, hdm]
          · by_cases hlt : dm < HighwayEntryDetector.MERGE_POINT_DETECTION_M
            · right
              refine ⟨setDiscard st.highway_cars u.car_id, ?_, ?_⟩ <;>
                simp [HighwayEntryDetector.on_car_update, hsp, hhd, hz, hce,
                  hdm, hlt]
            · left
              simp [HighwayEntryDetector.on_car_update, hsp, hhd, hz, hce,
                hdm, hlt]
      · left
        simp [HighwayEntryDetector.on_car_update, hsp, hhd, hz]

/-- C9 (amended): every alert emitted by a highway-entry step names a pair
that was not yet in the alerted-pair registry and is registered afterwards
(so at most one alert fires per pair while it stays registered), and the
alerts of one step name pairwise distinct pairs.  The registry is pruned
only in the highway branch: when the updating car is classified "highway"
and lies more than `2 × ENTRY_ZONE_M` from the merge point, every
registered pair containing that car's id is removed; a car classified
"entering" never shrinks the registry, whatever its distance to the merge
point. -/
theorem highway_alert_dedup (g : Geo) (hw ent : List (ℚ × ℚ))
    (st : HighwayEntryState) (u : CarUpdate) (now : ℚ) :
    (∀ a ∈ (HighwayEntryDetector.on_car_update g hw ent st u now).2,
      alert_pair a ∉ st.alerted_pairs ∧
      alert_pair a ∈
        (HighwayEntryDetector.on_car_update g hw ent st u now).1.alerted_pairs) ∧
    (HighwayEntryDetector.on_car_update g hw ent st u now).2.Pairwise
      (fun a b => alert_pair a ≠ alert_pair b) ∧
    (∀ s hd, u.speed_kmh = some s → u.heading_deg = some hd →
      (s == 0) = false →
      HighwayEntryDetector.classify_car g hw ent u = some "highway" →
      ∀ dm, HighwayEntryDetector.distance_to_merge_point g ent u.latitude
          u.longitude = some dm →
        dm > HighwayEntryDetector.ENTRY_ZONE_M * 2 →
        (HighwayEntryDetector.on_car_update g hw ent st u now).1.alerted_pairs
          = st.alerted_pairs.filter
              (fun pr => !(pr.1 == u.car_id || pr.2 == u.car_id))) ∧
    (HighwayEntryDetector.classify_car g hw ent u = some "entering" →
      st.alerted_pairs ⊆
        (HighwayEntryDetector.on_car_update g hw ent st u now).1.alerted_pairs) := by
  refine ⟨?_, ?_, ?_, ?_⟩
  · intro a ha
    rcases he_step_shape g hw ent st u now with ⟨hnil, _⟩ | ⟨hws, h1, h2⟩
    · rw [hnil] at ha
      cases ha
    · rw [h2] at ha
      have hinv := (scan_highway_cars_inv g ent (dictSet st.cars u.car_id u)
        u now hws st.alerted_pairs).2.1 a ha
      rw [h1]
      exact ⟨hinv.2, hinv.1⟩
  · rcases he_step_shape g hw ent st u now with ⟨hnil, _⟩ | ⟨hws, h1, h2⟩
    · rw [hnil]
      exact List.Pairwise.nil
    · rw [h2]
      exact (scan_highway_cars_inv g ent (dictSet st.cars u.car_id u) u now
        hws st.alerted_pairs).2.2
  · intro s hd hsp hhd hz hcl dm hdm hfar
    have hce : (HighwayEntryDetector.classify_car g hw ent u
        == some "entering") = false := by rw [hcl]; rfl
    have hch : (HighwayEntryDetector.classify_car g hw ent u
        == some "highway") = true := by rw [hcl]; rfl
    have hfard : decide (dm > HighwayEntryDetector.ENTRY_ZONE_M * 2)
        = true := decide_eq_true hfar
    simp [HighwayEntryDetector.on_car_update, hsp, hhd, hz, hce, hch, hdm,
      hfard]
  · intro hcl
    have hce : (HighwayEntryDetector.classify_car g hw ent u
        == some "entering") = true := by rw [hcl]; rfl
    rcases hsp : u.speed_kmh with _ | s
    · simp only [HighwayEntryDetector.on_car_update, hsp]
      all_goals exact fun x hx => hx
    · rcases hhd : u.heading_deg with _ | hd
      · simp only [HighwayEntryDetector.on_car_update, hsp, hhd]
        all_goals exact fun x hx => hx
      · rcases hz : s == 0 with _ | _
        · rcases hdm : HighwayEntryDetector.distance_to_merge_point g ent
              u.latitude u.longitude with _ | dm
          · simp only [HighwayEntryDetector.on_car_update, hsp, hhd, hz,
              Bool.false_eq_true, if_false, hce, if_true, hdm]
            all_goals exact fun x hx => hx
          · by_cases hlt : dm < HighwayEntryDetector.MERGE_POINT_DETECTION_M
            · have hsub := (scan_highway_cars_inv g ent
                (dictSet st.cars u.car_id u) u now
                (setDiscard st.highway_cars u.car_id) st.alerted_pairs).1
              simp only [HighwayEntryDetector.on_car_update, hsp, hhd, hz,
                Bool.false_eq_true, if_false, hce, if_true, hdm, if_pos hlt]
              exact hsub
            · simp only [HighwayEntryDetector.on_car_update, hsp, hhd, hz,
                Bool.false_eq_true, if_false, hce, if_true, hdm, if_neg hlt]
              all_goals exact fun x hx => hx
        · simp only [HighwayEntryDetector.on_car_update, hsp, hhd, hz,
            if_true]
          all_goals exact fun x hx => hx

/-- Witness for C9 (amended): car h6, classified on the highway and 300 m
from the merge point, prunes exactly the registered pairs containing its
id. -/
theorem highway_alert_dedup_witness :
    (HighwayEntryDetector.on_car_update gTaxi hwFix entFix stHe2 uH6
        0).1.alerted_pairs = [("a", "b")] := by
  have hcl : HighwayEntryDetector.classify_car gTaxi hwFix entFix uH6
      = some "highway" := by
    norm_num [HighwayEntryDetector.classify_car,
      HighwayEntryDetector.is_near_route, gTaxi, hwFix, entFix, uH6]
  have hdm : HighwayEntryDetector.distance_to_merge_point gTaxi entFix
      uH6.latitude uH6.longitude = some 300 := by
    norm_num [HighwayEntryDetector.distance_to_merge_point,
      HighwayEntryDetector.find_merge_point, gTaxi, entFix, uH6]
  have h := (highway_alert_dedup gTaxi hwFix entFix stHe2 uH6 0).2.2.1 50 0
    rfl rfl (by norm_num [beq_eq_false_iff_ne]) hcl 300 hdm
    (by norm_num [HighwayEntryDetector.ENTRY_ZONE_M])
  rw [h]
  rfl

/-- Counterexample for C9: entering car e1 sits 300 m (> 2 × ENTRY_ZONE)
from the merge point, yet its registered pair (e1, h1) is not removed —
removal only ever happens in the highway branch. -/
theorem highway_alert_dedup_counterexample :
    HighwayEntryDetector.classify_car gTaxi hwFix entFix uE1
        = some "entering" ∧
    HighwayEntryDetector.distance_to_merge_point gTaxi entFix uE1.latitude
        uE1.longitude = some 300 ∧
    (300 : ℚ) > HighwayEntryDetector.ENTRY_ZONE_M * 2 ∧
    (HighwayEntryDetector.on_car_update gTaxi hwFix entFix stHe uE1
        0).1.alerted_pairs = [("e1", "h1")] := by
  have hcl : HighwayEntryDetector.classify_car gTaxi hwFix entFix uE1
      = some "entering" := by
    norm_num [HighwayEntryDetector.classify_car,
      HighwayEntryDetector.is_near_route, gTaxi, hwFix, entFix, uE1]
  have hdm : HighwayEntryDetector.distance_to_merge_point gTaxi entFix
      uE1.latitude uE1.longitude = some 300 := by
    norm_num [HighwayEntryDetector.distance_to_merge_point,
      HighwayEntryDetector.find_merge_point, gTaxi, entFix, uE1]
  have hce : (HighwayEntryDetector.classify_car gTaxi hwFix entFix uE1
      == some "entering") = true := by rw [hcl]; rfl
  refine ⟨hcl, hdm, by norm_num [HighwayEntryDetector.ENTRY_ZONE_M], ?_⟩
  simp only [HighwayEntryDetector.on_car_update, hce, hdm]
  norm_num [uE1, stHe, HighwayEntryDetector.MERGE_POINT_DETECTION_M,
    beq_eq_false_iff_ne]

/-- The first component of the minimum-tracking fold is the plain minimum
fold of the tracked quantity. -/
theorem foldl_min_track_fst {α : Type} (d tm : α → ℚ) (l : List α) :
    ∀ acc : ℚ × ℚ,
      (l.foldl (fun acc t => if d t < acc.1 then (d t, tm t) else acc) acc).1
        = l.foldl (fun m t => min m (d t)) acc.1 := by
  induction l with
  | nil => intro acc; rfl
  | cons x xs ih =>
      intro acc
      simp only [List.foldl_cons]
      rw [ih]
      congr 1
      by_cases h : d x < acc.1
      · rw [if_pos h]
        exact (min_eq_right (le_of_lt h)).symm
      · rw [if_neg h]
        exact (min_eq_left (not_lt.mp h)).symm

/-- The second component of the minimum-tracking fold is either the seed's
or one of the tracked times. -/
theorem foldl_min_track_snd {α : Type} (d tm : α → ℚ) (l : List α) :
    ∀ acc : ℚ × ℚ,
      (l.foldl (fun acc t => if d t < acc.1 then (d t, tm t) else acc) acc).2
          = acc.2 ∨
      ∃ t ∈ l,
        (l.foldl (fun acc t => if d t < acc.1 then (d t, tm t) else acc) acc).2
          = tm t := by
  induction l with
  | nil => intro acc; exact Or.inl rfl
  | cons x xs ih =>
      intro acc
      simp only [List.foldl_cons]
      by_cases h : d x < acc.1
      · rw [if_pos h]
        rcases ih (d x, tm x) with h2 | ⟨t, ht, h2⟩
        · exact Or.inr ⟨x, List.mem_cons_self x xs, h2⟩
        · exact Or.inr ⟨t, List.mem_cons_of_mem x ht, h2⟩
      · rw [if_neg h]
        rcases ih acc with h2 | ⟨t, ht, h2⟩
        · exact Or.inl h2
        · exact Or.inr ⟨t, List.mem_cons_of_mem x ht, h2⟩

/-- A minimum fold never exceeds its seed. -/
theorem foldl_min_le_init {α : Type} (d : α → ℚ) (l : List α) :
    ∀ a : ℚ, l.foldl (fun m t => min m (d t)) a ≤ a := by
  induction l with
  | nil => intro a; exact le_refl a
  | cons x xs ih =>
      intro a
      simp only [List.foldl_cons]
      exact (ih (min a (d x))).trans (min_le_left _ _)

/-- C10: the collision predictor short-circuits to (true, 0, current
separation) below the 10 m threshold; otherwise its reported minimum
distance is the minimum of the current separation and the planar-
extrapolated separations at t = 0.1 s, ..., 4.9 s; in all cases collision
holds iff the reported minimum is below the threshold, the reported
minimum never exceeds the current separation, and the time to closest
approach lies in [0, 5). -/
theorem predict_collision_spec (g : Geo) (e h : CarUpdate) :
    (g.haversine_distance_m e.latitude e.longitude h.latitude h.longitude
        < HighwayEntryDetector.COLLISION_THRESHOLD_M →
      HighwayEntryDetector.predict_collision g e h
        = (true, 0, g.haversine_distance_m e.latitude e.longitude h.latitude
            h.longitude)) ∧
    (¬ g.haversine_distance_m e.latitude e.longitude h.latitude h.longitude
        < HighwayEntryDetector.COLLISION_THRESHOLD_M →
      (HighwayEntryDetector.predict_collision g e h).2.2
        = (List.range' 1 49).foldl
            (fun m (t : ℕ) => min m
              (HighwayEntryDetector.pred_distance g e h ((t : ℚ) / 10)))
            (g.haversine_distance_m e.latitude e.longitude h.latitude
              h.longitude)) ∧
    ((HighwayEntryDetector.predict_collision g e h).1 = true ↔
      (HighwayEntryDetector.predict_collision g e h).2.2
        < HighwayEntryDetector.COLLISION_THRESHOLD_M) ∧
    ((HighwayEntryDetector.predict_collision g e h).2.2
      ≤ g.haversine_distance_m e.latitude e.longitude h.latitude
          h.longitude) ∧
    (0 ≤ (HighwayEntryDetector.predict_collision g e h).2.1 ∧
      (HighwayEntryDetector.predict_collision g e h).2.1 < 5) := by
  by_cases hcd : g.haversine_distance_m e.latitude e.longitude h.latitude
      h.longitude < HighwayEntryDetector.COLLISION_THRESHOLD_M
  · have hout : HighwayEntryDetector.predict_collision g e h
        = (true, 0, g.haversine_distance_m e.latitude e.longitude h.latitude
            h.longitude) := by
      simp only [HighwayEntryDetector.predict_collision, if_pos hcd]
    refine ⟨fun _ => hout, fun hn => absurd hcd hn, ?_, ?_, ?_⟩
    · rw [hout]
      simpa using hcd
    · rw [hout]
    · rw [hout]
      norm_num
  · have hfst : (HighwayEntryDetector.predict_collision g e h).2.2
        = (List.range' 1 49).foldl
            (fun m (t : ℕ) => min m
              (HighwayEntryDetector.pred_distance g e h ((t : ℚ) / 10)))
            (g.haversine_distance_m e.latitude e.longitude h.latitude
              h.longitude) := by
      simp only [HighwayEntryDetector.predict_collision, if_neg hcd]
      exact foldl_min_track_fst _ _ _ _
    have hcol : (HighwayEntryDetector.predict_collision g e h).1
        = decide ((HighwayEntryDetector.predict_collision g e h).2.2
            < HighwayEntryDetector.COLLISION_THRESHOLD_M) := by
      simp only [HighwayEntryDetector.predict_collision, if_neg hcd]
    refine ⟨fun hc => absurd hc hcd, fun _ => hfst, ?_, ?_, ?_⟩
    · rw [hcol]
      simp
    · rw [hfst]
      exact foldl_min_le_init _ _ _
    · have hsnd := foldl_min_track_snd
        (fun t : ℕ => HighwayEntryDetector.pred_distance g e h ((t : ℚ) / 10))
        (fun t : ℕ => (t : ℚ) / 10) (List.range' 1 49)
        (g.haversine_distance_m e.latitude e.longitude h.latitude
          h.longitude, (0 : ℚ))
      have hproj : (HighwayEntryDetector.predict_collision g e h).2.1
          = ((List.range' 1 49).foldl
              (fun acc (t : ℕ) => if HighwayEntryDetector.pred_distance g e h
                  ((t : ℚ) / 10) < acc.1 then
                  (HighwayEntryDetector.pred_distance g e h ((t : ℚ) / 10),
                    (t : ℚ) / 10)
                else acc)
              (g.haversine_distance_m e.latitude e.longitude h.latitude
                h.longitude, (0 : ℚ))).2 := by
        simp only [HighwayEntryDetector.predict_collision, if_neg hcd]
      rw [hproj]
      rcases hsnd with h2 | ⟨t, ht, h2⟩
      · rw [h2]
        norm_num
      · rw [h2]
        rw [List.mem_range'_1] at ht
        constructor
        · positivity
        · have ht49 : (t : ℚ) ≤ 49 := by
            exact_mod_cast Nat.le_of_lt_succ ht.2
          linarith

/-- Witness for C10: at constant separation 5 m the predictor returns an
immediate collision with time 0; at constant separation 11 m the reported
minimum stays within the current separation and the time to closest
approach stays in [0, 5). -/
theorem predict_collision_spec_witness :
    HighwayEntryDetector.predict_collision gFive uA1 carB = (true, 0, 5) ∧
    (HighwayEntryDetector.predict_collision gEleven uA1 carB).2.2 ≤ 11 ∧
    0 ≤ (HighwayEntryDetector.predict_collision gEleven uA1 carB).2.1 ∧
    (HighwayEntryDetector.predict_collision gEleven uA1 carB).2.1 < 5 := by
  have h1 := (predict_collision_spec gFive uA1 carB).1
    (by norm_num [gFive, HighwayEntryDetector.COLLISION_THRESHOLD_M])
  have h4 := (predict_collision_spec gEleven uA1 carB).2.2.2.1
  have h5 := (predict_collision_spec gEleven uA1 carB).2.2.2.2
  refine ⟨by simpa [gFive] using h1, ?_, h5.1, h5.2⟩
  simpa [gEleven] using h4
